import Mathlib

/-!
Shallow embedding of the keyword traffic projection model from `src/app.py`
(CTR curve, difficulty-based rank floor, intent scoring, rank trajectory
simulation, per-row traffic projection with plateau carry-forward, and the
page-level pivot/scoring step), together with theorems settling the spec
claims about it.

Numbers are modelled as exact rationals (`ℚ`).  The one place where IEEE
floating point semantics is observable is the pandas division
`Cumulative Total / max` when the maximum is `0`: numpy produces a
non-finite value (NaN for `0/0`, ±inf otherwise) rather than a number,
which we model as `Option ℚ` with `none` standing for the non-finite
outcome.  Everywhere else the computations stay well inside exact decimal
arithmetic.
-/

namespace KeywordTraffic

/-- CTR curve from `get_ctr_dynamic` (src/app.py lines 6-34), an if/elif
chain on the integer rank with a final catch-all `else` branch. -/
def get_ctr_dynamic (rank : Int) : ℚ :=
  if rank = 1 then 0.285
  else if rank = 2 then 0.157
  else if rank = 3 then 0.11
  else if rank = 4 then 0.08
  else if rank = 5 then 0.063
  else if rank = 6 then 0.047
  else if rank = 7 then 0.038
  else if rank = 8 then 0.031
  else if rank = 9 then 0.026
  else if rank = 10 then 0.024
  else if 11 ≤ rank ∧ rank ≤ 20 then 0.02
  else if 21 ≤ rank ∧ rank ≤ 30 then 0.01
  else if 31 ≤ rank ∧ rank ≤ 50 then 0.005
  else 0.0025

/-- Difficulty-dependent rank floor from `determine_max_rank`
(src/app.py lines 37-47). -/
def determine_max_rank (difficulty : ℚ) : Int :=
  if difficulty ≤ 20 then 3
  else if difficulty ≤ 40 then 5
  else if difficulty ≤ 60 then 10
  else if difficulty ≤ 80 then 20
  else 30

/-- The intent priority table from `map_intent_score` (src/app.py lines 51-56);
`priority.get(i, 0)` returns 0 for unrecognized labels. -/
def intentPriority (label : String) : Nat :=
  if label = "Transactional" then 100
  else if label = "Commercial" then 80
  else if label = "Informational" then 50
  else if label = "Navigational" then 20
  else 0

/-- Python's `str.split(sep)` for a one-character separator, written as
structural recursion over the character list (so that it evaluates inside
the kernel): `"".split(",") = [""]`, `"a,b".split(",") = ["a","b"]`. -/
def py_split (sep : Char) : List Char → List Char → List (List Char)
  | [], acc => [acc.reverse]
  | c :: cs, acc =>
    if c = sep then acc.reverse :: py_split sep cs []
    else py_split sep cs (c :: acc)

/-- Python's `str.strip()`: drop whitespace from both ends. -/
def py_strip (cs : List Char) : List Char :=
  ((cs.dropWhile Char.isWhitespace).reverse.dropWhile Char.isWhitespace).reverse

/-- `[i.strip() for i in intent.split(",")]` (src/app.py line 61): the
comma-separated, whitespace-trimmed sub-labels of an intent string. -/
def sub_labels (s : String) : List String :=
  (py_split ',' s.toList []).map fun cs => String.mk (py_strip cs)

/-- `map_intent_score` (src/app.py lines 50-69).  A missing intent (pandas
NaN / Python None) is modelled as `none`; a present string as `some s`.
The source returns `None` when the input is NaN or blank after stripping,
otherwise splits on commas, strips each part, takes the running maximum of
the priority scores (starting from 0), and returns `None` when that maximum
stayed 0 (`best_score if best_score > 0 else None`). -/
def map_intent_score (intent : Option String) : Option Nat :=
  match intent with
  | none => none
  | some s =>
    if py_strip s.toList = [] then none
    else
      let best := (sub_labels s).foldl (fun b i => max b (intentPriority i)) 0
      if best > 0 then some best else none

/-- The per-month tier selection inside the loop of
`estimate_rank_with_cluster` (src/app.py lines 108-115). -/
def stepFor (currentRank fast medium slow verySlow : Int) : Int :=
  if currentRank > 50 then fast
  else if currentRank > 20 then medium
  else if currentRank > 10 then slow
  else verySlow

/-- The month loop of `estimate_rank_with_cluster` (src/app.py lines
107-120): each month picks the tier step, improves the rank with a floor of
1, clamps to the difficulty floor `maxRank`, and records the result. -/
def rankLoop (maxRank fast medium slow verySlow : Int) :
    Nat → Int → List Int
  | 0, _ => []
  | n + 1, currentRank =>
    let r1 := max 1 (currentRank - stepFor currentRank fast medium slow verySlow)
    let r2 := max r1 maxRank
    r2 :: rankLoop maxRank fast medium slow verySlow n r2

/-- The starting rank bracket of `estimate_rank_with_cluster`
(src/app.py lines 73-80). -/
def starting_rank (difficulty : ℚ) : Int :=
  if difficulty < 20 then 30
  else if difficulty < 40 then 40
  else if difficulty < 60 then 60
  else 80

/-- The (fast, medium, slow, verySlow) improvement steps selected by `mode`
(src/app.py lines 85-99); any mode other than "Conservative" or
"Aggressive" falls into the "Average" else branch. -/
def mode_steps (mode : String) : Int × Int × Int × Int :=
  if mode = "Conservative" then (4, 2, 1, 1)
  else if mode = "Aggressive" then (12, 6, 3, 2)
  else (8, 4, 2, 1)

/-- The cluster boost: `+1` to every step size when the flag is set
(src/app.py lines 101-105). -/
def boost_steps (steps : Int × Int × Int × Int) (is_cluster : Bool) :
    Int × Int × Int × Int :=
  if is_cluster then
    (steps.1 + 1, steps.2.1 + 1, steps.2.2.1 + 1, steps.2.2.2 + 1)
  else steps

/-- `estimate_rank_with_cluster` (src/app.py lines 72-122): starting rank
from the difficulty bracket, mode-dependent step sizes with the optional
cluster boost, then the month loop. -/
def estimate_rank_with_cluster (difficulty : ℚ) (months : Nat)
    (mode : String) (is_cluster : Bool) : List Int :=
  let steps := boost_steps (mode_steps mode) is_cluster
  rankLoop (determine_max_rank difficulty) steps.1 steps.2.1 steps.2.2.1
    steps.2.2.2 months (starting_rank difficulty)

/-- Python's `round` (round half to even) of an exact rational.  The source
applies `round(..., 1)` to values that are exact decimals well inside double
precision, so the binary-float representation error of CPython is not
observable on the inputs any claim exercises. -/
def py_round_int (q : ℚ) : Int :=
  let f := ⌊q⌋
  let r := q - f
  if r < 1 / 2 then f
  else if 1 / 2 < r then f + 1
  else if f % 2 = 0 then f else f + 1

/-- `round(x, 1)`: round to one decimal place. -/
def py_round1 (q : ℚ) : ℚ := (py_round_int (q * 10) : ℚ) / 10

/-- One input row of the validated table handed to `project_traffic`
(src/app.py lines 131-136 read these columns).  `Keyword` is never read by
the core, so it is omitted.  A missing/blank `Cluster Group` cell is
modelled as the empty string (falsy in Python, same as the source's
truthiness test). -/
structure Row where
  page : String
  volume : ℚ
  difficulty : ℚ
  intent : Option String
  cluster : String

/-- One element of the `projections` list built by `project_traffic`
(src/app.py lines 158-165). -/
structure MonthlyRecord where
  page : String
  month : Nat
  traffic : ℚ
  difficulty : ℚ
  intent : Option String
  cluster : String

/-- `df.groupby('Cluster Group')['Assigned Page'].nunique()` followed by
`.get(c, 0)` (src/app.py lines 129 and 138): the number of distinct
assigned pages among the rows of cluster group `c` (0 when no row has that
group, matching the dictionary default). -/
def cluster_page_counts (rows : List Row) (c : String) : Nat :=
  (((rows.filter fun r => r.cluster = c).map Row.page).dedup).length

/-- `is_cluster = cluster and cluster_page_counts.get(cluster, 0) >= 3`
(src/app.py line 138): Python's `and` first tests the truthiness of the
cluster string (an empty string is falsy and yields a falsy flag), then
evaluates the count comparison. -/
def is_cluster_flag (rows : List Row) (row : Row) : Bool :=
  if row.cluster = "" then false
  else decide (3 ≤ cluster_page_counts rows row.cluster)

/-- The month loop of `project_traffic` (src/app.py lines 142-157) for one
row, producing the per-month `Estimated Traffic` values.  State: `prev` is
`prev_traffic` and `plateau` is `plateau_hit`.  In the source
`prev_traffic` starts as `None` but is only ever read after `plateau_hit`
became true, which can only happen after an iteration assigned it; the
initial value `0` here is therefore never observable. -/
def trafficLoop (volume : ℚ) (maxRank : Int) :
    List Int → ℚ → Bool → List ℚ
  | [], _, _ => []
  | r :: rs, prev, plateau =>
    let fresh := py_round1 (volume * get_ctr_dynamic r)
    let t := if plateau then prev else fresh
    let prev' := if plateau then prev else fresh
    let plateau' := plateau || (r == maxRank)
    t :: trafficLoop volume maxRank rs prev' plateau'

/-- The per-month traffic values `project_traffic` records for a single row
given its cluster flag (src/app.py lines 140-157). -/
def row_traffics (volume difficulty : ℚ) (months : Nat) (mode : String)
    (is_cluster : Bool) : List ℚ :=
  trafficLoop volume (determine_max_rank difficulty)
    (estimate_rank_with_cluster difficulty months mode is_cluster) 0 false

/-- `project_traffic` (src/app.py lines 125-167): for each row, compute the
cluster flag from the whole row-set, the rank trajectory, and the monthly
traffic values with the plateau carry-forward, and emit one record per
month (months numbered from 1). -/
def project_traffic (rows : List Row) (months : Nat) (mode : String) :
    List MonthlyRecord :=
  rows.flatMap fun row =>
    let isC := is_cluster_flag rows row
    let traffics := row_traffics row.volume row.difficulty months mode isC
    (List.range traffics.length).zip traffics |>.map fun p =>
      { page := row.page, month := p.1 + 1, traffic := p.2,
        difficulty := row.difficulty, intent := row.intent,
        cluster := row.cluster }

/-- The distinct pages appearing in the projection records: the index of the
pivot table built in `pivot_projection` (src/app.py lines 171-177). -/
def pages (records : List MonthlyRecord) : List String :=
  (records.map MonthlyRecord.page).dedup

/-- `Cumulative Total` (src/app.py line 180): the pivot sums
`Estimated Traffic` per page and month (absent combinations filled with 0)
and `pivot.sum(axis=1)` then adds the month columns, which together equal
the sum of traffic over all of the page's records. -/
def cumulative_total (records : List MonthlyRecord) (p : String) : ℚ :=
  ((records.filter fun r => r.page = p).map MonthlyRecord.traffic).sum

/-- `projections.groupby("Assigned Page")["Difficulty"].mean()`
(src/app.py line 182), over the page's per-keyword-per-month records. -/
def avg_difficulty (records : List MonthlyRecord) (p : String) : ℚ :=
  let ds := (records.filter fun r => r.page = p).map MonthlyRecord.difficulty
  ds.sum / ds.length

/-- The list comprehension `[x for x in map(map_intent_score, intents) if x
is not None]` (src/app.py line 184) for the page's records. -/
def resolvable_scores (records : List MonthlyRecord) (p : String) : List Nat :=
  ((records.filter fun r => r.page = p).map MonthlyRecord.intent).filterMap
    map_intent_score

/-- `Avg Intent Score` (src/app.py lines 183-185): the sum of the resolvable
intent scores divided by `max(len(resolvable), 1)`. -/
def avg_intent_score (records : List MonthlyRecord) (p : String) : ℚ :=
  ((resolvable_scores records p).sum : ℚ) /
    (max (resolvable_scores records p).length 1 : ℚ)

/-- `pivot["Cumulative Total"].max()` (src/app.py line 190).  pandas returns
NaN for an empty column, modelled as `none`. -/
def max_cumulative (records : List MonthlyRecord) : Option ℚ :=
  ((pages records).map (cumulative_total records)).max?

/-- `Traffic Score` (src/app.py line 190):
`(pivot["Cumulative Total"] / pivot["Cumulative Total"].max()) * 100`.
The division is numpy float division: dividing by a zero maximum yields a
non-finite value (NaN for `0/0`, ±inf otherwise) instead of a number, which
is modelled as `none`; away from zero the result is the exact rational. -/
def traffic_score (records : List MonthlyRecord) (p : String) : Option ℚ :=
  match max_cumulative records with
  | none => none
  | some m =>
    if m = 0 then none else some (cumulative_total records p / m * 100)

/-- `Ease Score` (src/app.py line 191): `100 - pivot["Difficulty"]`. -/
def ease_score (records : List MonthlyRecord) (p : String) : ℚ :=
  100 - avg_difficulty records p

/-- `Final Page Score` (src/app.py lines 194-198):
`Traffic Score * 0.5 + Ease Score * 0.25 + Intent Score * 0.25`; a
non-finite traffic score propagates. -/
def final_page_score (records : List MonthlyRecord) (p : String) : Option ℚ :=
  (traffic_score records p).map fun ts =>
    ts * 0.5 + ease_score records p * 0.25 + avg_intent_score records p * 0.25

/-- The `Final Page Score` column as emitted after `pivot.round(1)`
(src/app.py line 200). -/
def pivot_final_score (records : List MonthlyRecord) (p : String) : Option ℚ :=
  (final_page_score records p).map py_round1

/-- The final-score formula exactly as the SPEC's words state it (spec §4.5
and claim C1), for comparison with `final_page_score` from the source:
traffic weight `1.0` when the cumulative total is at least 100 and `0.3`
otherwise, `finalPageScore = trafficScore * trafficWeight * 0.5 +
easeScore * 0.25 + intentScore * 0.25`, halved when the cumulative total is
below 10. -/
def spec_final_page_score (records : List MonthlyRecord) (p : String) :
    Option ℚ :=
  (traffic_score records p).map fun ts =>
    let w : ℚ := if 100 ≤ cumulative_total records p then 1 else 0.3
    let s := ts * w * 0.5 + ease_score records p * 0.25 +
      avg_intent_score records p * 0.25
    if cumulative_total records p < 10 then s / 2 else s

/-- Concrete projection record set exercising the final-score formula: one
page with cumulative total 5, average difficulty 20, average intent score
100. -/
def c1_records : List MonthlyRecord :=
  [{ page := "a", month := 1, traffic := 5, difficulty := 20,
     intent := some "Transactional", cluster := "" }]

/-- Concrete record set: one page whose three keyword records carry the
intents `""`, `"Unknown"` and `"Transactional"`. -/
def c7_records : List MonthlyRecord :=
  [{ page := "a", month := 1, traffic := 1, difficulty := 10,
     intent := some "", cluster := "" },
   { page := "a", month := 1, traffic := 1, difficulty := 10,
     intent := some "Unknown", cluster := "" },
   { page := "a", month := 1, traffic := 1, difficulty := 10,
     intent := some "Transactional", cluster := "" }]

/-- Concrete record set whose only page has cumulative total 0. -/
def c8_records : List MonthlyRecord :=
  [{ page := "a", month := 1, traffic := 0, difficulty := 20,
     intent := none, cluster := "" }]

/-- A row whose cluster group is the "No Cluster" sentinel string. -/
def c9_row : Row :=
  { page := "p1", volume := 10, difficulty := 10, intent := none,
    cluster := "No Cluster" }

/-- Three rows with three distinct assigned pages, all in the "No Cluster"
sentinel group. -/
def c9_rows : List Row :=
  [c9_row,
   { page := "p2", volume := 10, difficulty := 10, intent := none,
     cluster := "No Cluster" },
   { page := "p3", volume := 10, difficulty := 10, intent := none,
     cluster := "No Cluster" }]

/-- Invariant of a trajectory suffix: starting from a current rank `r`,
every element is at most the previous one and at least the floor `mr`. -/
def DescFloor (mr : Int) : Int → List Int → Prop
  | _, [] => True
  | r, x :: xs => x ≤ r ∧ mr ≤ x ∧ DescFloor mr x xs

/-! ## Helper lemmas -/

/-- The rank trajectory has one entry per month. -/
theorem rankLoop_length (mr f m s v : Int) :
    ∀ (n : Nat) (r : Int), (rankLoop mr f m s v n r).length = n := by
  intro n
  induction n with
  | zero => intro r; rfl
  | succ k ih => intro r; simp [rankLoop, ih]

theorem stepFor_nonneg {f m s v : Int} (hf : 0 ≤ f) (hm : 0 ≤ m)
    (hs : 0 ≤ s) (hv : 0 ≤ v) (r : Int) : 0 ≤ stepFor r f m s v := by
  unfold stepFor; split_ifs <;> assumption

theorem rankLoop_descFloor {mr f m s v : Int} (hf : 0 ≤ f) (hm : 0 ≤ m)
    (hs : 0 ≤ s) (hv : 0 ≤ v) (hmr : 1 ≤ mr) :
    ∀ (n : Nat) (r : Int), mr ≤ r →
      DescFloor mr r (rankLoop mr f m s v n r) := by
  intro n
  induction n with
  | zero => intro r _; trivial
  | succ k ih =>
    intro r hr
    have hstep := stepFor_nonneg hf hm hs hv r
    refine ⟨?_, ?_, ih _ (le_max_right _ _)⟩
    · exact max_le (max_le (hmr.trans hr) (by omega)) hr
    · exact le_max_right _ _

theorem descFloor_le_head {mr r : Int} {l : List Int} (h : DescFloor mr r l) :
    ∀ i, i < l.length → l.getD i 0 ≤ r := by
  induction l generalizing r with
  | nil => intro i hi; simp at hi
  | cons x xs ih =>
    intro i hi
    obtain ⟨hxr, _, hxs⟩ := h
    cases i with
    | zero => simpa using hxr
    | succ j =>
      simp only [List.getD_cons_succ]
      exact le_trans (ih hxs j (by simpa using hi)) hxr

theorem descFloor_floor {mr r : Int} {l : List Int} (h : DescFloor mr r l) :
    ∀ i, i < l.length → mr ≤ l.getD i 0 := by
  induction l generalizing r with
  | nil => intro i hi; simp at hi
  | cons x xs ih =>
    intro i hi
    obtain ⟨_, hmx, hxs⟩ := h
    cases i with
    | zero => simpa using hmx
    | succ j => simpa using ih hxs j (by simpa using hi)

theorem descFloor_mono {mr r : Int} {l : List Int} (h : DescFloor mr r l) :
    ∀ i j, i ≤ j → j < l.length → l.getD j 0 ≤ l.getD i 0 := by
  induction l generalizing r with
  | nil => intro i j _ hj; simp at hj
  | cons x xs ih =>
    intro i j hij hj
    obtain ⟨_, _, hxs⟩ := h
    cases i with
    | zero =>
      simp only [List.getD_cons_zero]
      cases j with
      | zero => simp
      | succ j' =>
        simp only [List.getD_cons_succ]
        exact descFloor_le_head hxs j' (by simpa using hj)
    | succ i' =>
      cases j with
      | zero => omega
      | succ j' =>
        simp only [List.getD_cons_succ]
        exact ih hxs i' j' (by omega) (by simpa using hj)

theorem boost_steps_nonneg (mode : String) (c : Bool) :
    0 ≤ (boost_steps (mode_steps mode) c).1 ∧
    0 ≤ (boost_steps (mode_steps mode) c).2.1 ∧
    0 ≤ (boost_steps (mode_steps mode) c).2.2.1 ∧
    0 ≤ (boost_steps (mode_steps mode) c).2.2.2 := by
  unfold boost_steps mode_steps
  split_ifs <;> norm_num

theorem one_le_determine_max_rank (d : ℚ) : 1 ≤ determine_max_rank d := by
  unfold determine_max_rank; split_ifs <;> norm_num

theorem determine_max_rank_le_starting_rank (d : ℚ) :
    determine_max_rank d ≤ starting_rank d := by
  unfold determine_max_rank starting_rank
  split_ifs <;> norm_num

/-- The trajectory produced by `estimate_rank_with_cluster` satisfies the
descent-with-floor invariant from its starting rank. -/
theorem estimate_descFloor (d : ℚ) (months : Nat) (mode : String) (c : Bool) :
    DescFloor (determine_max_rank d) (starting_rank d)
      (estimate_rank_with_cluster d months mode c) := by
  obtain ⟨h1, h2, h3, h4⟩ := boost_steps_nonneg mode c
  exact rankLoop_descFloor h1 h2 h3 h4 (one_le_determine_max_rank d) months
    (starting_rank d) (determine_max_rank_le_starting_rank d)

theorem estimate_length (d : ℚ) (months : Nat) (mode : String) (c : Bool) :
    (estimate_rank_with_cluster d months mode c).length = months :=
  rankLoop_length _ _ _ _ _ months (starting_rank d)

theorem getD_replicate {α : Type} (a d : α) :
    ∀ (n : Nat) (i : Nat), i < n → (List.replicate n a).getD i d = a := by
  intro n
  induction n with
  | zero => intro i hi; omega
  | succ k ih =>
    intro i hi
    cases i with
    | zero => rfl
    | succ i' =>
      simp only [List.replicate_succ, List.getD_cons_succ]
      exact ih i' (by omega)

/-- Once the plateau flag is set, every remaining month reports the frozen
previous traffic value. -/
theorem trafficLoop_plateau (v : ℚ) (mr : Int) :
    ∀ (rs : List Int) (prev : ℚ),
      trafficLoop v mr rs prev true = List.replicate rs.length prev := by
  intro rs
  induction rs with
  | nil => intro prev; rfl
  | cons r rs' ih => intro prev; simp [trafficLoop, ih, List.replicate_succ]

/-- If `t` is the first index whose rank equals the floor `mr`, every
traffic value from index `t` on equals the value at index `t`. -/
theorem trafficLoop_freeze (v : ℚ) (mr : Int) :
    ∀ (rs : List Int) (prev : ℚ) (t : Nat), t < rs.length →
      rs.getD t 0 = mr → (∀ k, k < t → rs.getD k 0 ≠ mr) →
      ∀ j, t ≤ j → j < rs.length →
        (trafficLoop v mr rs prev false).getD j 0 =
          (trafficLoop v mr rs prev false).getD t 0 := by
  intro rs
  induction rs with
  | nil => intro prev t ht; simp at ht
  | cons r rs' ih =>
    intro prev t ht hfirst hbefore j hij hj
    cases t with
    | zero =>
      have hr : r = mr := by simpa using hfirst
      have hbeq : (r == mr) = true := by simpa using hr
      have hexp : trafficLoop v mr (r :: rs') prev false
          = py_round1 (v * get_ctr_dynamic r) ::
            List.replicate rs'.length (py_round1 (v * get_ctr_dynamic r)) := by
        simp [trafficLoop, hbeq, trafficLoop_plateau]
      rw [hexp]
      cases j with
      | zero => rfl
      | succ j' =>
        simp only [List.getD_cons_succ, List.getD_cons_zero]
        exact getD_replicate _ _ _ j' (by simpa using hj)
    | succ t' =>
      have hr : r ≠ mr := by simpa using hbefore 0 (Nat.succ_pos t')
      have hbeq : (r == mr) = false := by simpa using hr
      have hexp : trafficLoop v mr (r :: rs') prev false
          = py_round1 (v * get_ctr_dynamic r) ::
            trafficLoop v mr rs' (py_round1 (v * get_ctr_dynamic r)) false := by
        simp [trafficLoop, hbeq]
      cases j with
      | zero => omega
      | succ j' =>
        rw [hexp]
        simp only [List.getD_cons_succ]
        exact ih _ t' (by simpa using ht) (by simpa using hfirst)
          (fun k hk => by simpa using hbefore (k + 1) (by omega)) j'
          (by omega) (by simpa using hj)

/-! ## Claim theorems -/

/-- C2 (counterexample): for difficulty 15, mode Average, no cluster boost
and 3 months, the trajectory is NOT `[22, 14, 6]`: the starting rank 30
falls in the `rank > 20` tier, whose Average step is the medium step 4, not
the fast step 8 the claim's arithmetic assumes. -/
theorem C2_counterexample :
    estimate_rank_with_cluster 15 3 "Average" false ≠ [22, 14, 6] := by
  decide

/-- C2 (amended): for difficulty 15, mode Average, cluster boost off and 3
months, the trajectory is exactly `[26, 22, 18]`: starting rank 30, floor
3, and each month subtracts the medium Average step 4 (the `rank > 20`
tier), clamped below at 1 and at the floor. -/
theorem C2_trajectory :
    estimate_rank_with_cluster 15 3 "Average" false = [26, 22, 18] := rfl

/-- C4: for every difficulty `d`, mode `m`, cluster flag `c` and month
count `N ≥ 1`, the trajectory has exactly `N` elements, is monotonically
non-increasing, never goes below `determine_max_rank d` (which is 3 for
difficulty ≤ 20, 5 for ≤ 40, 10 for ≤ 60, 20 for ≤ 80, else 30), and once
an element equals the floor every later element equals it as well. -/
theorem C4_trajectory_invariants (d : ℚ) (mode : String) (c : Bool)
    (N : Nat) (hN : 1 ≤ N) :
    (estimate_rank_with_cluster d N mode c).length = N ∧
    (∀ i j, i ≤ j → j < N →
      (estimate_rank_with_cluster d N mode c).getD j 0 ≤
        (estimate_rank_with_cluster d N mode c).getD i 0) ∧
    (∀ i, i < N →
      determine_max_rank d ≤
        (estimate_rank_with_cluster d N mode c).getD i 0) ∧
    (∀ i j, i ≤ j → j < N →
      (estimate_rank_with_cluster d N mode c).getD i 0 =
        determine_max_rank d →
      (estimate_rank_with_cluster d N mode c).getD j 0 =
        determine_max_rank d) ∧
    ((d ≤ 20 → determine_max_rank d = 3) ∧
     (20 < d → d ≤ 40 → determine_max_rank d = 5) ∧
     (40 < d → d ≤ 60 → determine_max_rank d = 10) ∧
     (60 < d → d ≤ 80 → determine_max_rank d = 20) ∧
     (80 < d → determine_max_rank d = 30)) := by
  have hdf := estimate_descFloor d N mode c
  have hlen := estimate_length d N mode c
  refine ⟨hlen, ?_, ?_, ?_, ?_, ?_, ?_, ?_, ?_⟩
  · intro i j hij hj
    exact descFloor_mono hdf i j hij (by omega)
  · intro i hi
    exact descFloor_floor hdf i (by omega)
  · intro i j hij hj hieq
    have h1 := descFloor_mono hdf i j hij (by omega)
    have h2 := descFloor_floor hdf j (by omega)
    omega
  · intro h; unfold determine_max_rank; split_ifs <;> first | rfl | linarith
  · intro h1 h2; unfold determine_max_rank
    split_ifs <;> first | rfl | linarith
  · intro h1 h2; unfold determine_max_rank
    split_ifs <;> first | rfl | linarith
  · intro h1 h2; unfold determine_max_rank
    split_ifs <;> first | rfl | linarith
  · intro h; unfold determine_max_rank; split_ifs <;> first | rfl | linarith

/-- Witness for C4 at difficulty 15, mode Average, no boost, 3 months. -/
theorem C4_witness :
    (estimate_rank_with_cluster 15 3 "Average" false).length = 3 :=
  (C4_trajectory_invariants 15 "Average" false 3 (by norm_num)).1

/-- C3: plateau carry-forward.  For every keyword row (any volume,
difficulty, month count, mode, cluster flag), if month index `t` is the
first whose estimated rank equals the difficulty-derived floor, then the
estimated traffic recorded for every month from `t` on equals the value
recorded at month `t`. -/
theorem C3_plateau_carry (volume difficulty : ℚ) (months : Nat)
    (mode : String) (c : Bool) (t : Nat) (ht : t < months)
    (hfirst : (estimate_rank_with_cluster difficulty months mode c).getD t 0
      = determine_max_rank difficulty)
    (hbefore : ∀ k, k < t →
      (estimate_rank_with_cluster difficulty months mode c).getD k 0 ≠
        determine_max_rank difficulty)
    (j : Nat) (htj : t ≤ j) (hj : j < months) :
    (row_traffics volume difficulty months mode c).getD j 0 =
      (row_traffics volume difficulty months mode c).getD t 0 := by
  have hlen := estimate_length difficulty months mode c
  exact trafficLoop_freeze volume (determine_max_rank difficulty) _ 0 t
    (by omega) hfirst hbefore j htj (by omega)

/-- Witness for C3: difficulty 10, Aggressive mode, 9 months; the rank
first hits the floor 3 at month index 7 and the traffic at index 8 equals
the traffic at index 7. -/
theorem C3_witness :
    (estimate_rank_with_cluster 10 9 "Aggressive" false).getD 7 0 =
      determine_max_rank 10 ∧
    (row_traffics 1000 10 9 "Aggressive" false).getD 8 0 =
      (row_traffics 1000 10 9 "Aggressive" false).getD 7 0 :=
  ⟨by decide, C3_plateau_carry 1000 10 9 "Aggressive" false 7 (by decide)
    (by decide) (by decide) 8 (by decide) (by decide)⟩

theorem get_ctr_of_out_of_range (r : Int) (h : r ≤ 0 ∨ 51 ≤ r) :
    get_ctr_dynamic r = 0.0025 := by
  unfold get_ctr_dynamic
  rw [if_neg (show ¬r = 1 by omega), if_neg (show ¬r = 2 by omega),
    if_neg (show ¬r = 3 by omega), if_neg (show ¬r = 4 by omega),
    if_neg (show ¬r = 5 by omega), if_neg (show ¬r = 6 by omega),
    if_neg (show ¬r = 7 by omega), if_neg (show ¬r = 8 by omega),
    if_neg (show ¬r = 9 by omega), if_neg (show ¬r = 10 by omega),
    if_neg (show ¬(11 ≤ r ∧ r ≤ 20) by omega),
    if_neg (show ¬(21 ≤ r ∧ r ≤ 30) by omega),
    if_neg (show ¬(31 ≤ r ∧ r ≤ 50) by omega)]

set_option maxHeartbeats 1600000 in
theorem get_ctr_succ_le (r : Int) (h : 1 ≤ r) :
    get_ctr_dynamic (r + 1) ≤ get_ctr_dynamic r := by
  rcases le_or_lt r 50 with h50 | h50
  · interval_cases r <;> norm_num [get_ctr_dynamic]
  · rw [get_ctr_of_out_of_range (r + 1) (by omega),
      get_ctr_of_out_of_range r (by omega)]

theorem get_ctr_anti {r1 r2 : Int} (ha : 1 ≤ r1) (hab : r1 < r2) :
    get_ctr_dynamic r2 ≤ get_ctr_dynamic r1 := by
  have key : ∀ n : Int, r1 + 1 ≤ n → get_ctr_dynamic n ≤ get_ctr_dynamic r1 :=
    Int.le_induction (get_ctr_succ_le r1 ha)
      (fun m hm ihm => le_trans (get_ctr_succ_le m (by omega)) ihm)
  exact key r2 (by omega)

/-- C5: the CTR model is monotonically non-increasing over ranks `≥ 1` and
takes exactly the reference-curve values. -/
theorem C5_ctr_monotone :
    (∀ r1 r2 : Int, 1 ≤ r1 → r1 < r2 →
      get_ctr_dynamic r2 ≤ get_ctr_dynamic r1) ∧
    get_ctr_dynamic 1 = 0.285 ∧ get_ctr_dynamic 2 = 0.157 ∧
    get_ctr_dynamic 3 = 0.11 ∧ get_ctr_dynamic 4 = 0.08 ∧
    get_ctr_dynamic 5 = 0.063 ∧ get_ctr_dynamic 6 = 0.047 ∧
    get_ctr_dynamic 7 = 0.038 ∧ get_ctr_dynamic 8 = 0.031 ∧
    get_ctr_dynamic 9 = 0.026 ∧ get_ctr_dynamic 10 = 0.024 ∧
    (∀ r : Int, 11 ≤ r → r ≤ 20 → get_ctr_dynamic r = 0.02) ∧
    (∀ r : Int, 21 ≤ r → r ≤ 30 → get_ctr_dynamic r = 0.01) ∧
    (∀ r : Int, 31 ≤ r → r ≤ 50 → get_ctr_dynamic r = 0.005) ∧
    (∀ r : Int, r ≤ 0 ∨ 51 ≤ r → get_ctr_dynamic r = 0.0025) := by
  refine ⟨fun r1 r2 h1 h12 => get_ctr_anti h1 h12, rfl, rfl, rfl, rfl, rfl,
    rfl, rfl, rfl, rfl, rfl, ?_, ?_, ?_, fun r h => get_ctr_of_out_of_range r h⟩
  · intro r ha hb
    unfold get_ctr_dynamic
    rw [if_neg (show ¬r = 1 by omega), if_neg (show ¬r = 2 by omega),
      if_neg (show ¬r = 3 by omega), if_neg (show ¬r = 4 by omega),
      if_neg (show ¬r = 5 by omega), if_neg (show ¬r = 6 by omega),
      if_neg (show ¬r = 7 by omega), if_neg (show ¬r = 8 by omega),
      if_neg (show ¬r = 9 by omega), if_neg (show ¬r = 10 by omega),
      if_pos (show 11 ≤ r ∧ r ≤ 20 by omega)]
  · intro r ha hb
    unfold get_ctr_dynamic
    rw [if_neg (show ¬r = 1 by omega), if_neg (show ¬r = 2 by omega),
      if_neg (show ¬r = 3 by omega), if_neg (show ¬r = 4 by omega),
      if_neg (show ¬r = 5 by omega), if_neg (show ¬r = 6 by omega),
      if_neg (show ¬r = 7 by omega), if_neg (show ¬r = 8 by omega),
      if_neg (show ¬r = 9 by omega), if_neg (show ¬r = 10 by omega),
      if_neg (show ¬(11 ≤ r ∧ r ≤ 20) by omega),
      if_pos (show 21 ≤ r ∧ r ≤ 30 by omega)]
  · intro r ha hb
    unfold get_ctr_dynamic
    rw [if_neg (show ¬r = 1 by omega), if_neg (show ¬r = 2 by omega),
      if_neg (show ¬r = 3 by omega), if_neg (show ¬r = 4 by omega),
      if_neg (show ¬r = 5 by omega), if_neg (show ¬r = 6 by omega),
      if_neg (show ¬r = 7 by omega), if_neg (show ¬r = 8 by omega),
      if_neg (show ¬r = 9 by omega), if_neg (show ¬r = 10 by omega),
      if_neg (show ¬(11 ≤ r ∧ r ≤ 20) by omega),
      if_neg (show ¬(21 ≤ r ∧ r ≤ 30) by omega),
      if_pos (show 31 ≤ r ∧ r ≤ 50 by omega)]

/-- Witness for C5: the monotonicity component applied at ranks 2 < 3. -/
theorem C5_witness : get_ctr_dynamic 3 ≤ get_ctr_dynamic 2 :=
  C5_ctr_monotone.1 2 3 (by decide) (by decide)

/-- C10: the CTR lookup is total and silently maps every rank `≤ 0`, and
every rank `> 50`, to the final else value 0.0025 instead of rejecting or
clamping. -/
theorem C10_ctr_total :
    (∀ r : Int, r ≤ 0 → get_ctr_dynamic r = 0.0025) ∧
    (∀ r : Int, 50 < r → get_ctr_dynamic r = 0.0025) :=
  ⟨fun r h => get_ctr_of_out_of_range r (Or.inl h),
   fun r h => get_ctr_of_out_of_range r (Or.inr (by omega))⟩

/-- Witness for C10 at ranks `-7` and `51`. -/
theorem C10_witness :
    get_ctr_dynamic (-7) = 0.0025 ∧ get_ctr_dynamic 51 = 0.0025 :=
  ⟨C10_ctr_total.1 (-7) (by decide), C10_ctr_total.2 51 (by decide)⟩

theorem le_foldl_max : ∀ (l : List Nat) (a : Nat), a ≤ l.foldl max a := by
  intro l
  induction l with
  | nil => intro a; simp
  | cons x xs ih => intro a; exact le_trans (le_max_left a x) (ih (max a x))

theorem mem_le_foldl_max :
    ∀ (l : List Nat) (a x : Nat), x ∈ l → x ≤ l.foldl max a := by
  intro l
  induction l with
  | nil => intro a x hx; simp at hx
  | cons y ys ih =>
    intro a x hx
    rcases List.mem_cons.mp hx with h | h
    · subst h; exact le_trans (le_max_right a x) (le_foldl_max ys (max a x))
    · exact ih (max a y) x h

theorem foldl_max_eq_or_mem :
    ∀ (l : List Nat) (a : Nat), l.foldl max a = a ∨ l.foldl max a ∈ l := by
  intro l
  induction l with
  | nil => intro a; left; rfl
  | cons y ys ih =>
    intro a
    rcases ih (max a y) with h | h
    · rcases Nat.le_total a y with hay | hya
      · right
        rw [List.foldl_cons, h, max_eq_right hay]
        exact List.mem_cons_self y ys
      · left; rw [List.foldl_cons, h, max_eq_left hya]
    · right; exact List.mem_cons_of_mem y h

/-- C6: `map_intent_score` returns "no score" (`none`, distinct from zero)
exactly when its input is absent, blank, or every comma-separated,
whitespace-trimmed sub-label is unrecognized (priority 0); otherwise it
returns a recognized sub-label's score that is maximal among all the
sub-label scores. -/
theorem C6_intent_score :
    map_intent_score none = none ∧
    ∀ s : String,
      (map_intent_score (some s) = none ↔
        py_strip s.toList = [] ∨ ∀ l ∈ sub_labels s, intentPriority l = 0) ∧
      (∀ v, map_intent_score (some s) = some v →
        v ∈ (sub_labels s).map intentPriority ∧
          ∀ x ∈ (sub_labels s).map intentPriority, x ≤ v) := by
  refine ⟨rfl, fun s => ?_⟩
  by_cases hb : py_strip s.toList = []
  · have hb' : py_strip s.data = [] := hb
    refine ⟨?_, ?_⟩
    · simp [map_intent_score, hb, hb']
    · intro v hv; simp [map_intent_score, hb, hb'] at hv
  · have hms : map_intent_score (some s) =
        if 0 < ((sub_labels s).map intentPriority).foldl max 0
        then some (((sub_labels s).map intentPriority).foldl max 0)
        else none := by
      simp only [map_intent_score, hb, if_false, List.foldl_map]
    refine ⟨?_, ?_⟩
    · rw [hms]
      constructor
      · intro hnone
        right
        have hM : ((sub_labels s).map intentPriority).foldl max 0 = 0 := by
          by_contra hM0
          rw [if_pos (by omega)] at hnone
          exact Option.noConfusion hnone
        intro l hl
        have := mem_le_foldl_max ((sub_labels s).map intentPriority) 0
          (intentPriority l) (List.mem_map_of_mem intentPriority hl)
        omega
      · rintro (h | h)
        · exact absurd h hb
        · have hM : ((sub_labels s).map intentPriority).foldl max 0 = 0 := by
            rcases foldl_max_eq_or_mem ((sub_labels s).map intentPriority) 0
              with he | hm
            · exact he
            · obtain ⟨l, hl, he⟩ := List.mem_map.mp hm
              rw [← he]; exact h l hl
          rw [hM]; simp
    · intro v hv
      rw [hms] at hv
      by_cases hM : 0 < ((sub_labels s).map intentPriority).foldl max 0
      · rw [if_pos hM] at hv
        have hveq : v = ((sub_labels s).map intentPriority).foldl max 0 :=
          (Option.some.injEq _ _ ▸ hv).symm
        subst hveq
        refine ⟨?_, fun x hx => mem_le_foldl_max _ 0 x hx⟩
        rcases foldl_max_eq_or_mem ((sub_labels s).map intentPriority) 0
          with he | hm
        · omega
        · exact hm
      · rw [if_neg hM] at hv
        exact Option.noConfusion hv

/-- Witness for C6: the intent string "Unknown, Transactional" resolves to
score 100, which is one of (and maximal among) its sub-label scores. -/
theorem C6_witness :
    map_intent_score (some "Unknown, Transactional") = some 100 ∧
    100 ∈ (sub_labels "Unknown, Transactional").map intentPriority :=
  ⟨rfl, ((C6_intent_score.2 "Unknown, Transactional").2 100 rfl).1⟩

/-- C7: the page-level average intent score counts only the resolvable
intent scores in both numerator and denominator (0 when none resolves), and
in particular a page whose records carry the intents `""`, `"Unknown"` and
`"Transactional"` has average intent score exactly 100, not 100/3. -/
theorem C7_avg_intent :
    (∀ (records : List MonthlyRecord) (p : String),
      resolvable_scores records p = [] → avg_intent_score records p = 0) ∧
    (∀ (records : List MonthlyRecord) (p : String),
      resolvable_scores records p ≠ [] →
      avg_intent_score records p =
        ((resolvable_scores records p).sum : ℚ) /
          ((resolvable_scores records p).length : ℚ)) ∧
    avg_intent_score c7_records "a" = 100 := by
  refine ⟨?_, ?_, ?_⟩
  · intro records p h; rw [avg_intent_score, h]; norm_num
  · intro records p h
    rw [avg_intent_score]
    have hlen : 1 ≤ (resolvable_scores records p).length :=
      List.length_pos.mpr h
    rw [max_eq_left
      (by exact_mod_cast hlen :
        (1 : ℚ) ≤ ((resolvable_scores records p).length : ℚ))]
  · have h : resolvable_scores c7_records "a" = [100] := by
      simp [resolvable_scores, c7_records]; rfl
    rw [avg_intent_score, h]; norm_num

/-- Witness for C7: a page with no records has no resolvable intent scores
and average intent score 0. -/
theorem C7_witness : avg_intent_score [] "b" = 0 :=
  C7_avg_intent.1 [] "b" rfl

/-- C8 (counterexample): at a record set whose only page has cumulative
total 0 the maximum is 0, yet the traffic score is the non-finite result of
the numpy division `0 / 0` (modelled `none`) — not the number 0 the claim
asserts. -/
theorem C8_counterexample :
    max_cumulative c8_records = some 0 ∧
    traffic_score c8_records "a" = none ∧
    traffic_score c8_records "a" ≠ some 0 := by
  have hmax : max_cumulative c8_records = some 0 := by
    simp [max_cumulative, pages, c8_records, cumulative_total]
  refine ⟨hmax, ?_, ?_⟩
  · simp [traffic_score, hmax]
  · simp [traffic_score, hmax]

/-- C8 (amended): when the maximum cumulative total is 0 the computation
still succeeds (the function is total and raises nothing), but every page's
traffic score is the non-finite float NaN (modelled `none`), not 0. -/
theorem C8_zero_max_gives_nan (records : List MonthlyRecord) (p : String)
    (h : max_cumulative records = some 0) :
    traffic_score records p = none := by
  simp [traffic_score, h]

/-- Witness for C8 at the concrete zero-traffic record set. -/
theorem C8_witness : traffic_score c8_records "b" = none :=
  C8_zero_max_gives_nan c8_records "b"
    (by simp [max_cumulative, pages, c8_records, cumulative_total])

/-- C9 (counterexample): three rows with three distinct assigned pages all
in cluster group "No Cluster" — the source sets the cluster flag to true
for such a row, while the claim requires it to be false because the group
is the "No Cluster" sentinel.  The source never checks for the sentinel
string, only for Python truthiness of the cell. -/
theorem C9_counterexample :
    is_cluster_flag c9_rows c9_row = true ∧ c9_row.cluster = "No Cluster" :=
  ⟨rfl, rfl⟩

/-- C9 (amended): the cluster-boost flag passed to the rank estimator is
true exactly when the row's cluster group is a non-empty (truthy) string
and that group has at least 3 distinct assigned pages in the input row-set;
no "No Cluster" sentinel is excluded. -/
theorem C9_flag_condition (rows : List Row) (row : Row) :
    is_cluster_flag rows row = true ↔
      row.cluster ≠ "" ∧
        3 ≤ (((rows.filter fun r => r.cluster = row.cluster).map
          Row.page).dedup).length := by
  unfold is_cluster_flag cluster_page_counts
  split_ifs with h
  · simp [h]
  · simp [h]

/-- Witness for C9 at the concrete sentinel row-set. -/
theorem C9_witness :
    is_cluster_flag c9_rows c9_row = true ∧ c9_row.cluster ≠ "" ∧
      3 ≤ (((c9_rows.filter fun r => r.cluster = c9_row.cluster).map
        Row.page).dedup).length :=
  ⟨(C9_flag_condition c9_rows c9_row).mpr (by decide), by decide, by decide⟩

/-- C1 (counterexample): a single page with cumulative total 5, average
difficulty 20 and average intent score 100.  The source computes final page
score 95.0 (`100*0.5 + 80*0.25 + 100*0.25`, no traffic weight and no
low-traffic penalty), while the claim's formula gives
`(100*0.3*0.5 + 80*0.25 + 100*0.25) / 2 = 30.0`. -/
theorem C1_counterexample :
    cumulative_total c1_records "a" = 5 ∧
    pivot_final_score c1_records "a" = some 95 ∧
    spec_final_page_score c1_records "a" = some 30 ∧
    pivot_final_score c1_records "a" ≠ spec_final_page_score c1_records "a" := by
  have hmax : max_cumulative c1_records = some 5 := by
    simp [max_cumulative, pages, c1_records, cumulative_total]
  have hcum : cumulative_total c1_records "a" = 5 := by
    simp [cumulative_total, c1_records]
  have hts : traffic_score c1_records "a" = some 100 := by
    rw [traffic_score, hmax, hcum]; norm_num
  have hease : ease_score c1_records "a" = 80 := by
    rw [ease_score]; simp [avg_difficulty, c1_records]; norm_num
  have hint : avg_intent_score c1_records "a" = 100 := by
    have h : resolvable_scores c1_records "a" = [100] := by
      simp [resolvable_scores, c1_records]; rfl
    rw [avg_intent_score, h]; norm_num
  have h1 : pivot_final_score c1_records "a" = some 95 := by
    rw [pivot_final_score, final_page_score, hts, hease, hint]
    norm_num [py_round1, py_round_int]
  have h2 : spec_final_page_score c1_records "a" = some 30 := by
    rw [spec_final_page_score, hts, hease, hint, hcum]
    norm_num
  refine ⟨hcum, h1, h2, ?_⟩
  rw [h1, h2]
  intro hcontra
  have : (95 : ℚ) = 30 := Option.some.injEq _ _ ▸ hcontra
  norm_num at this

/-- C1 (amended): for every page of the summary (whenever the maximum
cumulative total is a nonzero number `m`), the emitted final page score is
`round1(trafficScore * 0.5 + easeScore * 0.25 + intentScore * 0.25)` with
`trafficScore = cumulativeTotal / m * 100`, `easeScore = 100 -
avgDifficulty` and `intentScore = avgIntentScore`: there is no traffic
weight and no low-traffic halving in the source. -/
theorem C1_final_score_formula (records : List MonthlyRecord) (p : String)
    (m : ℚ) (hp : p ∈ pages records) (hm : max_cumulative records = some m)
    (h0 : m ≠ 0) :
    pivot_final_score records p =
      some (py_round1 (cumulative_total records p / m * 100 * 0.5 +
        (100 - avg_difficulty records p) * 0.25 +
        avg_intent_score records p * 0.25)) := by
  simp only [pivot_final_score, final_page_score, traffic_score, hm,
    ease_score]
  simp [h0]

/-- Witness for C1 at the concrete one-page record set. -/
theorem C1_witness :
    pivot_final_score c1_records "a" =
      some (py_round1 (cumulative_total c1_records "a" / 5 * 100 * 0.5 +
        (100 - avg_difficulty c1_records "a") * 0.25 +
        avg_intent_score c1_records "a" * 0.25)) :=
  C1_final_score_formula c1_records "a" 5 (by decide)
    (by simp [max_cumulative, pages, c1_records, cumulative_total])
    (by norm_num)

end KeywordTraffic
